import Mathlib

/-!
Shallow embedding of the Mahaaya date-slicer visual (src/Date-picker-main/
mahayaa-date-picker-new-changes/src/visual.ts) and proofs about its
reconciliation behaviour.

Modelling conventions:
* A JS `Date` is its UTC timestamp in integer milliseconds (`Int`); the
  local timezone of the host is taken to be UTC, so `setHours(0,0,0,0)`
  is flooring to a day boundary.
* JS strings that carry dates are modelled by the `JSVal` type: the output
  of `Date.prototype.toISOString` is `JSVal.isoString ms` (that formatting
  is injective in the timestamp and `new Date(iso)` recovers it; the
  `YYYY-MM-DD` and `DD/MM/YYYY` regexes of `parseToDate` do not match a
  full ISO timestamp because of its time part).
* `setTimeout` callbacks in the source only ever reset mode flags to
  `false`; a tick therefore returns, besides the new state and the filter
  writes, the set of flags for which such a reset was scheduled
  (`Resets`), and `settle` models those timers having fired before the
  next tick.
* The host column metadata is abstracted to the `(table, column)` pair
  that `extractTableAndColumn` derives from it; encode and decode both go
  through that pair.
-/

namespace Mahayaa

/-- Milliseconds in one day. -/
def dayMs : Int := 86400000

/-- Model of `setHours(0, 0, 0, 0)` on a UTC timestamp: floor to midnight. -/
def startOfDay (t : Int) : Int := dayMs * (t / dayMs)

/-- Model of `setHours(23, 59, 59, 999)`: the last millisecond of the day of `t`. -/
def endOfDay (t : Int) : Int := startOfDay t + (dayMs - 1)

/-- A JS `Date` is valid iff its timestamp magnitude is at most 8.64e15;
`isNaN(d.getTime())` is the complement of this. -/
def jsDateValid (ms : Int) : Bool := -8640000000000000 ≤ ms && ms ≤ 8640000000000000

/-- Day number of a proleptic-Gregorian civil date (month `m` in 1..12),
days counted from 1970-01-01 (Howard Hinnant's `days_from_civil`). -/
def daysFromCivil (y m d : Int) : Int :=
  let yy := if m ≤ 2 then y - 1 else y
  let era := yy / 400
  let yoe := yy - era * 400
  let mp := if m ≤ 2 then m + 9 else m - 3
  let doy := (153 * mp + 2) / 5 + d - 1
  let doe := yoe * 365 + yoe / 4 - yoe / 100 + doy
  era * 146097 + doe - 719468

/-- Civil (year, 0-based month) of a day number (Hinnant's `civil_from_days`). -/
def civilFromDays (z0 : Int) : Int × Int :=
  let z := z0 + 719468
  let era := z / 146097
  let doe := z - era * 146097
  let yoe := (doe - doe / 1460 + doe / 36524 - doe / 146096) / 365
  let y := yoe + era * 400
  let doy := doe - (365 * yoe + yoe / 4 - yoe / 100)
  let mp := (5 * doy + 2) / 153
  let m := if mp < 10 then mp + 3 else mp - 9
  (if m ≤ 2 then y + 1 else y, m - 1)

/-- Model of `Date.prototype.getFullYear` (UTC = local). -/
def getFullYear (t : Int) : Int := (civilFromDays (t / dayMs)).1

/-- Model of `Date.prototype.getMonth` (0-based, UTC = local). -/
def getMonth (t : Int) : Int := (civilFromDays (t / dayMs)).2

/-- Model of the JS `new Date(year, monthIndex, day)` constructor: the
two-digit-year rule (0..99 means 1900..1999) and month/day normalization,
yielding a midnight timestamp. -/
def mkDateJS (y0 mIdx d : Int) : Int :=
  let y := if 0 ≤ y0 ∧ y0 ≤ 99 then y0 + 1900 else y0
  let totalM := y * 12 + mIdx
  (daysFromCivil (totalM / 12) (totalM % 12 + 1) 1 + (d - 1)) * dayMs

/-- The heterogeneous values `parseToDate` can receive. `otherString` stands
for any string matched by neither regex, carrying the result of the native
`new Date(string)` parse (`none` = `NaN`). -/
inductive JSVal where
  | date (ms : Int)
  | invalidDate
  | num (n : Int)
  | isoString (ms : Int)
  | ymdString (y m d : Nat)
  | dmyString (d m y : Nat)
  | otherString (nativeParse : Option Int)
  | other
deriving DecidableEq, Repr

/-- Epoch milliseconds of `Date.UTC(1899, 11, 30)`, the Excel serial epoch. -/
def excelEpochMs : Int := -2209161600000

/-- Faithful port of `Visual.parseToDate` (visual.ts lines 1144-1182). Every
return of a date in the source is guarded by an `isNaN(getTime())` check,
modelled by `jsDateValid`. -/
def parseToDate : JSVal → Option Int
  | .date ms => if jsDateValid ms then some ms else none
  | .invalidDate => none
  | .num n =>
      if n < 10000000000 then
        let ms := excelEpochMs + n * dayMs
        if jsDateValid ms then some ms else none
      else if jsDateValid n then some n else none
  | .isoString ms => if jsDateValid ms then some ms else none
  | .ymdString y m d =>
      let ms := mkDateJS (y : Int) ((m : Int) - 1) (d : Int)
      if jsDateValid ms then some ms else none
  | .dmyString d m y =>
      let ms := mkDateJS (y : Int) ((m : Int) - 1) (d : Int)
      if jsDateValid ms then some ms else none
  | .otherString r =>
      match r with
      | some t => if jsDateValid t then some t else none
      | none => none
  | .other => none

/-- The `(tableName, columnName)` pair `extractTableAndColumn` derives from
the bound column's metadata; the regex parsing of `queryName` is abstracted
to its result. -/
structure Source where
  table : String
  column : String
deriving DecidableEq, Repr

/-- One condition of an advanced filter predicate. -/
structure FilterCond where
  operator : String
  value : JSVal
deriving DecidableEq, Repr

/-- An advanced-filter predicate on the filter bus (its target plus its
conditions; `$schema` and `logicalOperator` carry no information for the
codec and are omitted). -/
structure AdvFilter where
  table : String
  column : String
  conditions : List FilterCond
deriving DecidableEq, Repr

/-- The predicate `applyDateFilter` builds (visual.ts lines 1050-1058). -/
def mkAdvancedFilter (src : Source) (minD maxD : Int) : AdvFilter :=
  { table := src.table, column := src.column,
    conditions := [⟨"GreaterThanOrEqual", .isoString minD⟩,
                   ⟨"LessThanOrEqual", .isoString maxD⟩] }

/-- Test whether the first list starts the second, used for substring search. -/
def prefixMatches : List Char → List Char → Bool
  | [], _ => true
  | _ :: _, [] => false
  | a :: as, b :: bs => a == b && prefixMatches as bs

/-- Substring containment on character lists (model of `String.includes`). -/
def hasSubstr : List Char → List Char → Bool
  | [], pat => pat.isEmpty
  | c :: cs, pat => prefixMatches pat (c :: cs) || hasSubstr cs pat

/-- Model of `String.prototype.toLowerCase` as a character list. -/
def lowerList (s : String) : List Char := s.toList.map Char.toLower

/-- The condition scan inside `getDateRangeFromFilters` (lines 959-971):
later conditions for the same side overwrite earlier ones. -/
def decodeConds : List FilterCond → Option Int → Option Int → Option Int × Option Int
  | [], mn, mx => (mn, mx)
  | c :: rest, mn, mx =>
    if c.operator = "" then decodeConds rest mn mx
    else
      match parseToDate c.value with
      | none => decodeConds rest mn mx
      | some t =>
        if hasSubstr (lowerList c.operator) ("greater".toList) then
          decodeConds rest (some t) mx
        else if hasSubstr (lowerList c.operator) ("less".toList) then
          decodeConds rest mn (some t)
        else decodeConds rest mn mx

/-- The per-filter scan of `getDateRangeFromFilters`: skip filters whose
target differs or whose conditions are empty; return the first filter that
yields both bounds. -/
def scanFilters : List AdvFilter → Source → Option (Int × Int)
  | [], _ => none
  | f :: rest, s =>
    if f.table = s.table ∧ f.column = s.column then
      if f.conditions.isEmpty then scanFilters rest s
      else
        match decodeConds f.conditions none none with
        | (some mn, some mx) => some (mn, mx)
        | _ => scanFilters rest s
    else scanFilters rest s

/-- Faithful port of `Visual.getDateRangeFromFilters` (lines 934-979). -/
def getDateRangeFromFilters (filters : List AdvFilter) (src : Option Source) :
    Option (Int × Int) :=
  match src with
  | none => none
  | some s => if filters.isEmpty then none else scanFilters filters s

/-- The seven time-relative preset identifiers, as listed repeatedly in the
source. -/
def timeBasedPresets : List String :=
  ["today", "yesterday", "last3days", "last7Days", "last30Days", "thisMonth", "lastMonth"]

/-- The `switch (preset)` of `calculatePresetRange` (lines 861-905), before
normalization and clamping; `none` is the `default: return null` case. -/
def rawPresetRange (preset : String) (now : Int) (dMin dMax : Option Int) :
    Option (Int × Int) :=
  match preset with
  | "today" => some (now, now)
  | "yesterday" => some (now - dayMs, now - dayMs)
  | "last3days" => some (now - 2 * dayMs, now)
  | "thisMonth" => some (mkDateJS (getFullYear now) (getMonth now) 1, now)
  | "lastMonth" =>
      some (mkDateJS (getFullYear now) (getMonth now - 1) 1,
            mkDateJS (getFullYear now) (getMonth now) 0)
  | "last7Days" => some (now - 7 * dayMs, now)
  | "last30Days" => some (now - 30 * dayMs, now)
  | "minDate" => let m := dMin.getD now; some (m, m)
  | "maxDate" => let m := dMax.getD now; some (m, m)
  | _ => none

/-- The clamp-to-data-bounds tail of `calculatePresetRange` (lines 911-929);
runs only when both bounds are present. -/
def clampPreset (pMin0 pMax0 : Int) (dMin dMax : Option Int) : Int × Int :=
  match dMin, dMax with
  | some lo, some hi =>
    let pMin1 := if pMin0 < lo then startOfDay lo else pMin0
    let pMax1 := if pMax0 > hi then endOfDay hi else pMax0
    let pMin2 := if pMin1 > pMax1 then startOfDay pMax1 else pMin1
    (pMin2, pMax1)
  | _, _ => (pMin0, pMax0)

/-- Faithful port of `Visual.calculatePresetRange` (lines 852-932): `now` is
the tick's `new Date()` and `dMin`/`dMax` are the instance's stored
`dataMinDate`/`dataMaxDate`. -/
def calculatePresetRange (preset : String) (now : Int) (dMin dMax : Option Int) :
    Option (Int × Int) :=
  if preset = "" ∨ preset = "none" then none
  else
    match rawPresetRange preset now dMin dMax with
    | none => none
    | some (a, b) => some (clampPreset (startOfDay a) (endOfDay b) dMin dMax)

/-- The instance fields of `Visual` that the reconciliation logic reads and
writes (visual.ts lines 26-64). `hasSliderWrapper` stands for
`reactSliderWrapper !== null`. -/
structure VState where
  dataMinDate : Option Int := none
  dataMaxDate : Option Int := none
  lastPresetSetting : Option String := none
  activePreset : Option String := none
  selectedMinDate : Option Int := none
  selectedMaxDate : Option Int := none
  currentDataSource : Option Source := none
  needsReRender : Bool := false
  lastDataHash : Option (List JSVal) := none
  shouldApplyFilter : Bool := true
  isUserInitiatedChange : Bool := false
  isRestoringBookmark : Bool := false
  presetJustChanged : Bool := false
  clearAllPending : Bool := false
  hasManualSelection : Bool := false
  presetRangeForClear : Option (Int × Int) := none
  defaultRangeForClear : Option (Int × Int) := none
  hasSliderWrapper : Bool := false
deriving DecidableEq, Repr

/-- Which mode flags a `setTimeout` was scheduled to reset to `false`
during the current call. -/
structure Resets where
  userInit : Bool := false
  presetJC : Bool := false
  restoring : Bool := false
  clearAll : Bool := false
deriving DecidableEq, Repr

/-- Union of two sets of scheduled resets. -/
def Resets.merge (a b : Resets) : Resets :=
  ⟨a.userInit || b.userInit, a.presetJC || b.presetJC,
   a.restoring || b.restoring, a.clearAll || b.clearAll⟩

/-- All scheduled flag-reset timers fire (they only ever set flags to
`false`), yielding the state the next tick starts from. -/
def settle (s : VState) (r : Resets) : VState :=
  { s with isUserInitiatedChange := s.isUserInitiatedChange && !r.userInit,
           presetJustChanged := s.presetJustChanged && !r.presetJC,
           isRestoringBookmark := s.isRestoringBookmark && !r.restoring,
           clearAllPending := s.clearAllPending && !r.clearAll }

/-- One invocation of `Visual.update`: the host-supplied `options` plus the
formatting-pane values read inside the tick. `now` is the tick's clock. -/
structure TickInput where
  hasDataView : Bool := true
  hasCategory : Bool := true
  isHierarchy : Bool := false
  values : List JSVal := []
  source : Option Source := none
  selectedPreset : String := "none"
  jsonFilters : List AdvFilter := []
  popupOnly : Bool := false
  isService : Bool := true
  now : Int := 0
deriving DecidableEq, Repr

/-- Model of `applyDateFilter` (lines 1042-1080): the `applyJsonFilter`
call happens iff `shouldApplyFilter` is true at call time. -/
def applyDateFilterM (shouldApplyFilter : Bool) (src : Source) (minD maxD : Int) :
    List AdvFilter :=
  if shouldApplyFilter then [mkAdvancedFilter src minD maxD] else []

/-- Model of `normalizeDateRange` (lines 981-993). -/
def normalizeDateRange (minD maxD : Int) : Int × Int :=
  let nMin := startOfDay minD
  let nMax := endOfDay maxD
  (nMin, if nMax < nMin then nMin else nMax)

/-- Model of `updateSelectedDates` (lines 996-1039): normalize, set the
selection and flags, mark manual selection unless this is a preset change,
apply the filter, schedule the user-initiated flag reset. -/
def updateSelectedDatesM (s0 : VState) (minD maxD : Int) (src : Option Source)
    (isPresetChange : Bool) : VState × List AdvFilter × Resets :=
  let n := normalizeDateRange minD maxD
  let s1 := { s0 with selectedMinDate := some n.1, selectedMaxDate := some n.2,
                      isUserInitiatedChange := true, shouldApplyFilter := true }
  let s2 := if isPresetChange then s1 else { s1 with hasManualSelection := true }
  let w := match src.orElse (fun _ => s2.currentDataSource) with
    | some d => applyDateFilterM s2.shouldApplyFilter d n.1 n.2
    | none => []
  (s2, w, { userInit := true })

/-- The `onDateChange` callback handed to the slider (lines 1324-1333). -/
def onDateChangeM (s0 : VState) (newMin newMax : Int) : VState × List AdvFilter :=
  let s1 := { s0 with hasManualSelection := true,
                      selectedMinDate := some newMin, selectedMaxDate := some newMax }
  match s1.currentDataSource with
  | some d => (s1, applyDateFilterM s1.shouldApplyFilter d newMin newMax)
  | none => (s1, [])

/-- Result of one step of the tick. -/
structure StepRes where
  s : VState
  writes : List AdvFilter
  resets : Resets
deriving Repr

/-- Lines 213-280: the bounds-changed branch (external-slicer detection,
clamping, initial-load seeding) and its bookmark-restore variant. -/
def boundsStep (s0 : VState) (inp : TickInput) (selectedPreset : String)
    (presetRangeForClear : Option (Int × Int)) (normMin normMax : Int)
    (boundsChanged : Bool) : StepRes :=
  if boundsChanged ∧ ¬ s0.isRestoringBookmark then
    let isInitialLoad := s0.dataMinDate = none ∨ s0.dataMaxDate = none
    let s1 := { s0 with dataMinDate := some normMin, dataMaxDate := some normMax }
    match s1.selectedMinDate, s1.selectedMaxDate with
    | some a, some b =>
      ⟨{ s1 with selectedMinDate := some (max a normMin),
                 selectedMaxDate := some (min b normMax), needsReRender := true }, [], {}⟩
    | _, _ =>
      match presetRangeForClear with
      | some (pf, pt) =>
        if isInitialLoad ∧ selectedPreset ≠ "" ∧ selectedPreset ≠ "none" then
          let s2 := { s1 with selectedMinDate := some pf, selectedMaxDate := some pt,
                              activePreset := some selectedPreset,
                              lastPresetSetting := some selectedPreset }
          if inp.source.isSome then
            let s3 := { s2 with isUserInitiatedChange := true, shouldApplyFilter := true }
            let r := updateSelectedDatesM s3 pf pt inp.source true
            ⟨{ r.1 with needsReRender := true }, r.2.1, r.2.2⟩
          else ⟨{ s2 with needsReRender := true }, [], {}⟩
        else
          ⟨{ s1 with selectedMinDate := some normMin, selectedMaxDate := some normMax,
                     needsReRender := true }, [], {}⟩
      | none =>
        ⟨{ s1 with selectedMinDate := some normMin, selectedMaxDate := some normMax,
                   needsReRender := true }, [], {}⟩
  else if boundsChanged ∧ s0.isRestoringBookmark then
    ⟨{ s0 with dataMinDate := some normMin, dataMaxDate := some normMax }, [], {}⟩
  else ⟨s0, [], {}⟩

/-- Lines 282-414: the preset-configuration-change branch and, when neither
preset nor bounds changed, the in-place preset enforcement / fallback. -/
def presetStep (s0 : VState) (inp : TickInput) (selectedPreset : String)
    (presetRangeForClear : Option (Int × Int)) (dataBoundMin dataBoundMax : Int)
    (normMin normMax : Int) (boundsChanged : Bool) : StepRes :=
  let isPresetChange := s0.lastPresetSetting ≠ some selectedPreset
  let isInitialPresetLoad :=
    s0.lastPresetSetting = none ∧ selectedPreset ≠ "" ∧ selectedPreset ≠ "none"
  if (isPresetChange ∨ isInitialPresetLoad) ∧ ¬ s0.isRestoringBookmark then
    let s1 := { s0 with dataMinDate := some dataBoundMin, dataMaxDate := some dataBoundMax }
    let pick : Int × Int × VState :=
      match presetRangeForClear with
      | some (pf, pt) =>
        if selectedPreset ≠ "" ∧ selectedPreset ≠ "none" then
          (pf, pt, { s1 with activePreset := some selectedPreset })
        else (dataBoundMin, dataBoundMax, { s1 with activePreset := none })
      | none => (dataBoundMin, dataBoundMax, { s1 with activePreset := none })
    let pMin := pick.1
    let pMax := pick.2.1
    let s2 := { pick.2.2 with selectedMinDate := some pMin, selectedMaxDate := some pMax,
                              lastPresetSetting := some selectedPreset,
                              presetJustChanged := true, isUserInitiatedChange := true,
                              shouldApplyFilter := true, needsReRender := true,
                              hasManualSelection := false }
    match inp.source with
    | some d =>
      let r := updateSelectedDatesM s2 pMin pMax inp.source true
      let w2 := applyDateFilterM r.1.shouldApplyFilter d pMin pMax
      ⟨r.1, r.2.1 ++ w2, { userInit := true, presetJC := true }⟩
    | none => ⟨s2, [], { userInit := true, presetJC := true }⟩
  else if ¬ boundsChanged then
    let s1 := if s0.dataMinDate = none ∨ s0.dataMaxDate = none then
                { s0 with dataMinDate := some dataBoundMin, dataMaxDate := some dataBoundMax }
              else s0
    match presetRangeForClear with
    | some (pf, pt) =>
      if selectedPreset ≠ "" ∧ selectedPreset ≠ "none" ∧ ¬ s1.hasManualSelection then
        let mismatch := s1.selectedMinDate ≠ some pf ∨ s1.selectedMaxDate ≠ some pt
        if mismatch then
          let s2 := { s1 with selectedMinDate := some pf, selectedMaxDate := some pt,
                              activePreset := some selectedPreset,
                              lastPresetSetting := some selectedPreset,
                              presetJustChanged := true, isUserInitiatedChange := true,
                              shouldApplyFilter := true }
          match inp.source with
          | some d =>
            let r := updateSelectedDatesM s2 pf pt inp.source true
            let w2 := applyDateFilterM r.1.shouldApplyFilter d pf pt
            ⟨r.1, r.2.1 ++ w2, { userInit := true, presetJC := true }⟩
          | none => ⟨s2, [], { userInit := true, presetJC := true }⟩
        else
          ⟨{ s1 with activePreset := some selectedPreset,
                     lastPresetSetting := some selectedPreset }, [], {}⟩
      else if s1.hasManualSelection then ⟨s1, [], {}⟩
      else if s1.selectedMinDate = none ∨ s1.selectedMaxDate = none then
        ⟨{ s1 with selectedMinDate := some normMin, selectedMaxDate := some normMax }, [], {}⟩
      else ⟨s1, [], {}⟩
    | none =>
      if s1.hasManualSelection then ⟨s1, [], {}⟩
      else if s1.selectedMinDate = none ∨ s1.selectedMaxDate = none then
        ⟨{ s1 with selectedMinDate := some normMin, selectedMaxDate := some normMax }, [], {}⟩
      else ⟨s1, [], {}⟩
  else ⟨s0, [], {}⟩

/-- Lines 416-457: the general preset-enforcement check (with its 1-second
tolerance), run after the branches above. -/
def generalEnforceStep (s0 : VState) (inp : TickInput) (selectedPreset : String)
    (presetRangeForClear : Option (Int × Int)) : StepRes :=
  match presetRangeForClear with
  | some (pf, pt) =>
    if selectedPreset ≠ "" ∧ selectedPreset ≠ "none" ∧
       ¬ s0.isRestoringBookmark ∧ ¬ s0.hasManualSelection then
      let needsEnforcement : Bool :=
        match s0.selectedMinDate, s0.selectedMaxDate with
        | some a, some b => decide ((a - pf).natAbs > 1000) || decide ((b - pt).natAbs > 1000)
        | _, _ => true
      if needsEnforcement ∧ s0.lastPresetSetting = some selectedPreset then
        let s1 := { s0 with selectedMinDate := some pf, selectedMaxDate := some pt,
                            activePreset := some selectedPreset,
                            presetJustChanged := true, isUserInitiatedChange := true,
                            shouldApplyFilter := true }
        match inp.source with
        | some d => ⟨s1, applyDateFilterM s1.shouldApplyFilter d pf pt, {}⟩
        | none => ⟨s1, [], {}⟩
      else ⟨s0, [], {}⟩
    else ⟨s0, [], {}⟩
  | none => ⟨s0, [], {}⟩

/-- Lines 459-492: during a bookmark restore with a time-based preset, force
the live preset range and schedule the restore flag's reset. -/
def bookmarkEnforceStep (s0 : VState) (inp : TickInput) (selectedPreset : String)
    (presetRangeForClear : Option (Int × Int)) : StepRes :=
  match presetRangeForClear with
  | some (pf, pt) =>
    if s0.isRestoringBookmark ∧ selectedPreset ≠ "" ∧ selectedPreset ∈ timeBasedPresets then
      let s1 := { s0 with selectedMinDate := some pf, selectedMaxDate := some pt,
                          activePreset := some selectedPreset,
                          lastPresetSetting := some selectedPreset,
                          hasManualSelection := false, shouldApplyFilter := true,
                          isUserInitiatedChange := true, needsReRender := true }
      let w := match inp.source with
        | some d => applyDateFilterM s1.shouldApplyFilter d pf pt
        | none => []
      ⟨s1, w, { userInit := true, restoring := true }⟩
    else ⟨s0, [], {}⟩
  | none => ⟨s0, [], {}⟩

/-- Lines 494-535: outside user-initiated changes, re-align a stale selection
with the live range of a time-based preset. -/
def staleEnforceStep (s0 : VState) (inp : TickInput) (selectedPreset : String)
    (presetRangeForClear : Option (Int × Int)) : StepRes :=
  let isTimeBasedPreset : Bool :=
    decide (selectedPreset ≠ "") && decide (selectedPreset ∈ timeBasedPresets)
  match presetRangeForClear with
  | some (pf, pt) =>
    let selectionIsStale : Bool :=
      match s0.selectedMinDate, s0.selectedMaxDate with
      | some a, some b => decide ((a - pf).natAbs > 1000) || decide ((b - pt).natAbs > 1000)
      | _, _ => false
    let canOverrideManual : Bool :=
      !s0.hasManualSelection || s0.clearAllPending || s0.isRestoringBookmark
    if isTimeBasedPreset && selectionIsStale && !s0.isUserInitiatedChange && canOverrideManual then
      let s1 := { s0 with selectedMinDate := some pf, selectedMaxDate := some pt,
                          activePreset := some selectedPreset,
                          lastPresetSetting := some selectedPreset,
                          hasManualSelection := false, shouldApplyFilter := true,
                          needsReRender := true }
      let w := match inp.source with
        | some d => applyDateFilterM s1.shouldApplyFilter d pf pt
        | none => []
      ⟨s1, w, {}⟩
    else ⟨s0, [], {}⟩
  | none => ⟨s0, [], {}⟩

/-- Lines 583-735: the external-predicate / clear-all decision chain. The
fourth component records whether the clear-all body (lines 672-731) ran. -/
def externalChain (s0 : VState) (inp : TickInput) (selectedPreset : String)
    (externalFilterRange : Option (Int × Int)) :
    VState × List AdvFilter × Resets × Bool :=
  let filtersCleared := externalFilterRange = none
  match externalFilterRange with
  | some (eMin, eMax) =>
    if ¬ s0.isUserInitiatedChange ∧ ¬ s0.isRestoringBookmark then
      let selectionChanged :=
        s0.selectedMinDate ≠ some eMin ∨ s0.selectedMaxDate ≠ some eMax
      if selectionChanged then
        ({ s0 with selectedMinDate := some eMin, selectedMaxDate := some eMax,
                   shouldApplyFilter := false, needsReRender := true }, [], {}, false)
      else (s0, [], {}, false)
    else if s0.isRestoringBookmark then
      let currentPreset := s0.lastPresetSetting.getD selectedPreset
      if currentPreset ≠ "" ∧ currentPreset ∈ timeBasedPresets then
        (match calculatePresetRange currentPreset inp.now s0.dataMinDate s0.dataMaxDate with
        | some (pf, pt) =>
          let s1 := { s0 with selectedMinDate := some pf, selectedMaxDate := some pt,
                              presetRangeForClear := some (pf, pt),
                              hasManualSelection := false }
          (match inp.source with
          | some d =>
            let s2 := { s1 with shouldApplyFilter := true, isUserInitiatedChange := true }
            (s2, applyDateFilterM s2.shouldApplyFilter d pf pt, { userInit := true }, false)
          | none => (s1, [], {}, false))
        | none => (s0, [], {}, false))
      else if currentPreset ≠ "" ∧ currentPreset ≠ "none" then
        (match calculatePresetRange currentPreset inp.now s0.dataMinDate s0.dataMaxDate with
        | some (pf, pt) =>
          let s1 := { s0 with selectedMinDate := some pf, selectedMaxDate := some pt,
                              presetRangeForClear := some (pf, pt) }
          (match inp.source with
          | some d =>
            let s2 := { s1 with shouldApplyFilter := true, isUserInitiatedChange := true }
            (s2, applyDateFilterM s2.shouldApplyFilter d pf pt, { userInit := true }, false)
          | none => (s1, [], {}, false))
        | none => (s0, [], {}, false))
      else (s0, [], {}, false)
    else ({ s0 with clearAllPending := false }, [], {}, false)
  | none =>
    if ¬ s0.isUserInitiatedChange ∧ filtersCleared ∧
       s0.dataMinDate.isSome ∧ s0.dataMaxDate.isSome then
      if ¬ s0.clearAllPending then
        let currentPreset := s0.lastPresetSetting.getD selectedPreset
        let pr := if currentPreset ≠ "" ∧ currentPreset ≠ "none" then
                    calculatePresetRange currentPreset inp.now s0.dataMinDate s0.dataMaxDate
                  else none
        let s1 := { s0 with clearAllPending := true }
        let s2 := match pr with
          | some (pf, pt) =>
            { s1 with selectedMinDate := some pf, selectedMaxDate := some pt,
                      activePreset := some currentPreset,
                      lastPresetSetting := some currentPreset }
          | none =>
            { s1 with selectedMinDate := s1.dataMinDate, selectedMaxDate := s1.dataMaxDate,
                      activePreset := none }
        let s3 := { s2 with hasManualSelection := false }
        let step : VState × List AdvFilter × Resets :=
          match inp.source, s3.selectedMinDate, s3.selectedMaxDate with
          | some d, some a, some b =>
            let s4 := { s3 with shouldApplyFilter := true, isUserInitiatedChange := true }
            (s4, applyDateFilterM s4.shouldApplyFilter d a b, { userInit := true })
          | _, _, _ => (s3, [], {})
        ({ step.1 with needsReRender := true }, step.2.1,
         { step.2.2 with clearAll := true }, true)
      else (s0, [], {}, false)
    else ({ s0 with clearAllPending := false }, [], {}, false)

/-- The state-relevant part of `renderDateCard` (lines 1186-1348): wrapper
recreation, the clear/bookmark preset preference, and its safeguards. -/
def renderDateCardM (s0 : VState) (minD maxD : Int)
    (presetRangeForClear : Option (Int × Int)) (selectedPreset : String)
    (popupOnly : Bool) : VState × List AdvFilter :=
  if popupOnly then (s0, [])
  else
    let s1 := { s0 with hasSliderWrapper := true }
    let isTimeBasedPreset : Bool := decide (selectedPreset ≠ "") &&
      decide (selectedPreset ≠ "none") && decide (selectedPreset ∈ timeBasedPresets)
    let currentMin := s1.selectedMinDate.getD minD
    let currentMax := s1.selectedMaxDate.getD maxD
    let isClearOrBookmark : Bool := s1.isRestoringBookmark || s1.clearAllPending
    let presetDiffers : Bool :=
      match presetRangeForClear, s1.selectedMinDate, s1.selectedMaxDate with
      | some (pf, pt), some a, some b =>
        decide ((a - pf).natAbs > 1000) || decide ((b - pt).natAbs > 1000)
      | _, _, _ => false
    let shouldUsePresetRange : Bool := presetRangeForClear.isSome && !s1.hasManualSelection &&
      ((isTimeBasedPreset && (isClearOrBookmark || presetDiffers)) ||
       (!isTimeBasedPreset && presetDiffers && decide (selectedPreset ≠ "") &&
        decide (selectedPreset ≠ "none")))
    let afterUse : VState × Int × Int × List AdvFilter :=
      if shouldUsePresetRange then
        match presetRangeForClear with
        | some (pf, pt) =>
          let w := match s1.currentDataSource with
            | some d => applyDateFilterM s1.shouldApplyFilter d pf pt
            | none => []
          ({ s1 with selectedMinDate := some pf, selectedMaxDate := some pt,
                     isRestoringBookmark := false, clearAllPending := false,
                     hasManualSelection := false }, pf, pt, w)
        | none => (s1, currentMin, currentMax, [])
      else (s1, currentMin, currentMax, [])
    let s2 := afterUse.1
    let cMin := afterUse.2.1
    let cMax := afterUse.2.2.1
    let w1 := afterUse.2.2.2
    let shouldForce : Bool :=
      match presetRangeForClear with
      | some (pf, pt) =>
        s2.clearAllPending && isTimeBasedPreset &&
        (decide ((cMin - pf).natAbs > 1000) || decide ((cMax - pt).natAbs > 1000))
      | none => false
    if shouldForce then
      match presetRangeForClear with
      | some (pf, pt) =>
        let w2 := match s2.currentDataSource with
          | some d => applyDateFilterM s2.shouldApplyFilter d pf pt
          | none => []
        ({ s2 with selectedMinDate := some pf, selectedMaxDate := some pt,
                   hasManualSelection := false }, w1 ++ w2)
      | none => (s2, w1)
    else (s2, w1)

/-- Output of a full tick: next state, filter-bus writes in order, scheduled
flag resets, and whether the clear-all body ran. -/
structure TickOut where
  s : VState
  writes : List AdvFilter
  resets : Resets
  tookClearAll : Bool
deriving Repr

/-- Lines 537-838: the filter block at the end of the tick — decode the
external predicate, run the live-preset-after-clear enforcement, the
external/clear-all chain, the apply decision, and `renderDateCard`. -/
def filterBlock (s0 : VState) (inp : TickInput) (selectedPreset : String)
    (presetRangeForClear : Option (Int × Int)) (boundsChanged : Bool) : TickOut :=
  if s0.dataMinDate.isSome ∧ s0.dataMaxDate.isSome then
    let s1 := { s0 with currentDataSource := inp.source }
    let externalFilterRange := getDateRangeFromFilters inp.jsonFilters inp.source
    let filtersCleared : Bool := externalFilterRange.isNone
    let isTimePresetNow : Bool :=
      decide (selectedPreset ≠ "") && decide (selectedPreset ∈ timeBasedPresets)
    let liveRes : VState × List AdvFilter × Resets :=
      match presetRangeForClear, s1.selectedMinDate, s1.selectedMaxDate with
      | some (pf, pt), some a, some b =>
        if s1.clearAllPending ∧ isTimePresetNow ∧
           ((a - pf).natAbs > 1000 ∨ (b - pt).natAbs > 1000) then
          let s2 := { s1 with selectedMinDate := some pf, selectedMaxDate := some pt,
                              hasManualSelection := false, shouldApplyFilter := true,
                              isUserInitiatedChange := true }
          let w := match inp.source with
            | some d => applyDateFilterM s2.shouldApplyFilter d pf pt
            | none => []
          ({ s2 with clearAllPending := false }, w, { userInit := true })
        else (s1, [], {})
      | _, _, _ => (s1, [], {})
    let sA := liveRes.1
    let chain := externalChain sA inp selectedPreset externalFilterRange
    let sB := chain.1
    let shouldApply := sB.shouldApplyFilter ∧ sB.selectedMinDate.isSome ∧
      sB.selectedMaxDate.isSome ∧
      (sB.presetJustChanged ∨
        ((¬ boundsChanged ∨ sB.isUserInitiatedChange ∨ sB.isRestoringBookmark) ∧
         (sB.isUserInitiatedChange ∨ ¬ filtersCleared ∨ sB.isRestoringBookmark)))
    let forceApplyForPreset := sB.presetJustChanged ∧ sB.selectedMinDate.isSome ∧
      sB.selectedMaxDate.isSome
    let forceApplyForBookmark := sB.isRestoringBookmark ∧ sB.selectedMinDate.isSome ∧
      sB.selectedMaxDate.isSome ∧ sB.shouldApplyFilter
    let applyRes : VState × List AdvFilter × Resets :=
      if shouldApply ∨ forceApplyForPreset ∨ forceApplyForBookmark then
        match sB.selectedMinDate, sB.selectedMaxDate with
        | some a, some b =>
          let s2 := { sB with shouldApplyFilter := true }
          let w := match inp.source with
            | some d => applyDateFilterM true d a b
            | none => [mkAdvancedFilter ⟨"", "Date"⟩ a b]
          if s2.isRestoringBookmark then (s2, w, { userInit := true, restoring := true })
          else (s2, w, {})
        | _, _ => (sB, [], {})
      else (sB, [], {})
    let sC := applyRes.1
    let rendered : VState × List AdvFilter :=
      match sC.dataMinDate, sC.dataMaxDate with
      | some dm, some dM =>
        renderDateCardM sC dm dM presetRangeForClear selectedPreset inp.popupOnly
      | _, _ => (sC, [])
    let sD := rendered.1
    let sE := if sD.needsReRender ∧ sD.hasSliderWrapper then
                { sD with needsReRender := false } else sD
    ⟨sE, liveRes.2.1 ++ chain.2.1 ++ applyRes.2.1 ++ rendered.2,
     (liveRes.2.2.merge chain.2.2.1).merge applyRes.2.2,
     chain.2.2.2⟩
  else ⟨s0, [], {}, false⟩

/-- Faithful port of `Visual.update` (lines 85-849), composed from the step
functions above in source order. -/
def update (s0 : VState) (inp : TickInput) : TickOut :=
  if ¬ inp.hasDataView then ⟨s0, [], {}, false⟩
  else
    let selectedPreset := inp.selectedPreset
    if ¬ (inp.hasCategory ∧ inp.values ≠ []) then ⟨s0, [], {}, false⟩
    else if inp.source.isSome ∧ inp.isHierarchy then ⟨s0, [], {}, false⟩
    else
      let s1 := { s0 with currentDataSource := inp.source }
      let s2 := if ¬ inp.isService ∧ s1.dataMinDate.isSome ∧ s1.dataMaxDate.isSome then
                  let s := if s1.lastDataHash.isSome ∧ s1.lastDataHash ≠ some inp.values
                           then { s1 with needsReRender := true } else s1
                  { s with lastDataHash := some inp.values }
                else s1
      match inp.values.filterMap parseToDate with
      | [] => ⟨s2, [], {}, false⟩
      | t :: ts =>
        let dataBoundMin := ts.foldl min t
        let dataBoundMax := ts.foldl max t
        let presetRangeForClear :=
          calculatePresetRange selectedPreset inp.now s2.dataMinDate s2.dataMaxDate
        let s3 := { s2 with presetRangeForClear := presetRangeForClear,
                            defaultRangeForClear := some (dataBoundMin, dataBoundMax) }
        let isTimeBasedPresetForClear : Bool :=
          decide (selectedPreset ≠ "") && decide (selectedPreset ∈ timeBasedPresets)
        let s4 := match presetRangeForClear with
          | some (pf, pt) =>
            if s3.clearAllPending ∧ isTimeBasedPresetForClear then
              { s3 with selectedMinDate := some pf, selectedMaxDate := some pt,
                        hasManualSelection := false, needsReRender := true }
            else s3
          | none => s3
        let normMin := startOfDay dataBoundMin
        let normMax := endOfDay dataBoundMax
        let boundsChanged := s4.dataMinDate = none ∨ s4.dataMaxDate = none ∨
          s4.dataMinDate ≠ some dataBoundMin ∨ s4.dataMaxDate ≠ some dataBoundMax
        let s5 := if ¬ inp.isService ∧ ¬ boundsChanged then
                    match s4.dataMinDate, s4.dataMaxDate with
                    | some a, some b =>
                      if (a - normMin).natAbs + (b - normMax).natAbs > 1000 then
                        { s4 with dataMinDate := some normMin, dataMaxDate := some normMax,
                                  selectedMinDate := some normMin,
                                  selectedMaxDate := some normMax, needsReRender := true }
                      else s4
                    | _, _ => s4
                  else s4
        let r1 := boundsStep s5 inp selectedPreset presetRangeForClear normMin normMax
                    boundsChanged
        let r2 := presetStep r1.s inp selectedPreset presetRangeForClear dataBoundMin
                    dataBoundMax normMin normMax boundsChanged
        let r3 := generalEnforceStep r2.s inp selectedPreset presetRangeForClear
        let r4 := bookmarkEnforceStep r3.s inp selectedPreset presetRangeForClear
        let r5 := staleEnforceStep r4.s inp selectedPreset presetRangeForClear
        let r6 := filterBlock r5.s inp selectedPreset presetRangeForClear boundsChanged
        ⟨r6.s, r1.writes ++ r2.writes ++ r3.writes ++ r4.writes ++ r5.writes ++ r6.writes,
         ((((r1.resets.merge r2.resets).merge r3.resets).merge r4.resets).merge
           r5.resets).merge r6.resets,
         r6.tookClearAll⟩

/-- The opaque state blob serialized for bookmarks. -/
structure BookmarkBlob where
  lastPreset : Option String := none
  isClearSelection : Bool := false
  selectedMinDate : Option Int := none
  selectedMaxDate : Option Int := none
  dataMinDate : Option Int := none
  dataMaxDate : Option Int := none
deriving DecidableEq, Repr

/-- Faithful port of `Visual.getBookmarkState` (lines 1444-1455). -/
def getBookmarkState (s : VState) : BookmarkBlob :=
  { lastPreset := s.activePreset, isClearSelection := false,
    selectedMinDate := none, selectedMaxDate := none,
    dataMinDate := none, dataMaxDate := none }

/-- JS `a || b` on nullable strings: the empty string is falsy. -/
def jsOrStr (a b : Option String) : Option String :=
  match a with
  | some p => if p = "" then b else some p
  | none => b

/-- Faithful port of `clearSelectionWithCurrentData` (lines 2113-2219):
recompute the preset (or fall back to data bounds) from the live clock and
stored bounds, then apply the filter. `panePreset` is the format-pane
preset value read from `formattingSettings`. -/
def clearSelectionWithCurrentData (s0 : VState) (panePreset : String) (now : Int) :
    VState × List AdvFilter × Resets :=
  let selectedPreset := (jsOrStr s0.lastPresetSetting (some panePreset)).getD panePreset
  let pr := if selectedPreset ≠ "" ∧ selectedPreset ≠ "none" then
              calculatePresetRange selectedPreset now s0.dataMinDate s0.dataMaxDate
            else none
  let s1 := match pr with
    | some (pf, pt) =>
      { s0 with selectedMinDate := some pf, selectedMaxDate := some pt,
                activePreset := some selectedPreset,
                lastPresetSetting := some selectedPreset, hasManualSelection := false }
    | none =>
      { s0 with selectedMinDate := s0.dataMinDate, selectedMaxDate := s0.dataMaxDate,
                activePreset := none, hasManualSelection := false }
  let applied : VState × List AdvFilter × Resets :=
    match s1.currentDataSource with
    | some d =>
      let minApply := match s1.presetRangeForClear, s1.isRestoringBookmark with
        | some (pf, _), true => some pf
        | _, _ => s1.selectedMinDate
      let maxApply := match s1.presetRangeForClear, s1.isRestoringBookmark with
        | some (_, pt), true => some pt
        | _, _ => s1.selectedMaxDate
      match minApply, maxApply with
      | some a, some b =>
        let s2 := { s1 with shouldApplyFilter := true, isUserInitiatedChange := true }
        (s2, applyDateFilterM s2.shouldApplyFilter d a b, { userInit := true })
      | _, _ => (s1, [], {})
    | none => (s1, [], {})
  ({ applied.1 with needsReRender := true }, applied.2.1, applied.2.2)

/-- The tail of `restoreBookmarkState` (lines 1994-2047) reached when no
time-based preset forced an early return: use the blob's dates unless a
preset can be recomputed, restore bounds and preset info, and apply the
filter (gated by the not-yet-raised `shouldApplyFilter`). -/
def restoreTail (s0 : VState) (blob : BookmarkBlob) (detectedPreset : Option String)
    (now : Int) : VState × List AdvFilter × Resets :=
  let s1 := match blob.selectedMinDate, blob.selectedMaxDate with
    | some a, some b =>
      (match detectedPreset with
       | some p =>
         if p ≠ "" ∧ p ≠ "none" then
           match calculatePresetRange p now s0.dataMinDate s0.dataMaxDate with
           | some (pf, pt) =>
             { s0 with selectedMinDate := some pf, selectedMaxDate := some pt,
                       presetRangeForClear := some (pf, pt) }
           | none => { s0 with selectedMinDate := some a, selectedMaxDate := some b }
         else { s0 with selectedMinDate := some a, selectedMaxDate := some b }
       | none => { s0 with selectedMinDate := some a, selectedMaxDate := some b })
    | _, _ => s0
  let s2 := match blob.dataMinDate with
    | some a => { s1 with dataMinDate := some a }
    | none => s1
  let s3 := match blob.dataMaxDate with
    | some b => { s2 with dataMaxDate := some b }
    | none => s2
  let s4 := match blob.lastPreset with
    | some p => if p ≠ "" ∧ p ≠ "none" then
                  { s3 with activePreset := some p, lastPresetSetting := some p }
                else s3
    | none => s3
  let applied : VState × List AdvFilter :=
    match s4.currentDataSource, s4.selectedMinDate, s4.selectedMaxDate with
    | some d, some a, some b =>
      ({ s4 with shouldApplyFilter := true, isUserInitiatedChange := true },
       applyDateFilterM s4.shouldApplyFilter d a b)
    | _, _, _ => (s4, [])
  (applied.1, applied.2, { userInit := true, restoring := true })

/-- Faithful port of `Visual.restoreBookmarkState` (lines 1899-2048).
`panePreset` is the format-pane preset value; `now` is the restore-time
clock. -/
def restoreBookmarkState (s0 : VState) (blob : BookmarkBlob) (panePreset : String)
    (now : Int) : VState × List AdvFilter × Resets :=
  let s1 := { s0 with isRestoringBookmark := true }
  if blob.isClearSelection then
    let clearPreset := match blob.lastPreset with
      | some p => if p ≠ "" ∧ p ≠ "none" then p else panePreset
      | none => panePreset
    let s2 := if clearPreset ≠ "" ∧ clearPreset ≠ "none" then
                { s1 with lastPresetSetting := some clearPreset,
                          activePreset := some clearPreset }
              else s1
    let r := clearSelectionWithCurrentData s2 panePreset now
    (r.1, r.2.1, { r.2.2 with userInit := true, restoring := true })
  else
    let detectedPreset := jsOrStr blob.lastPreset
      (jsOrStr s1.activePreset (if panePreset ≠ "none" then some panePreset else none))
    let isTimeBased : Bool := match detectedPreset with
      | some p => decide (p ∈ timeBasedPresets)
      | none => false
    if isTimeBased then
      match detectedPreset with
      | some p =>
        (match calculatePresetRange p now s1.dataMinDate s1.dataMaxDate with
         | some (pf, pt) =>
           let s2 := { s1 with selectedMinDate := some pf, selectedMaxDate := some pt,
                               presetRangeForClear := some (pf, pt),
                               hasManualSelection := false, activePreset := some p,
                               lastPresetSetting := some p,
                               shouldApplyFilter := true, isUserInitiatedChange := true }
           (match s2.currentDataSource with
            | some d => (s2, applyDateFilterM s2.shouldApplyFilter d pf pt, {})
            | none => ({ s2 with needsReRender := true }, [], {}))
         | none => restoreTail s1 blob detectedPreset now)
      | none => restoreTail s1 blob detectedPreset now
    else restoreTail s1 blob detectedPreset now

theorem startOfDay_le (t : Int) : startOfDay t ≤ t := by
  simp only [startOfDay, dayMs]
  omega

theorem le_endOfDay (t : Int) : t ≤ endOfDay t := by
  simp only [endOfDay, startOfDay, dayMs]
  omega

theorem startOfDay_le_endOfDay (t : Int) : startOfDay t ≤ endOfDay t := by
  simp only [endOfDay, dayMs]
  omega

theorem startOfDay_idem (t : Int) : startOfDay (startOfDay t) = startOfDay t := by
  simp only [startOfDay, dayMs]
  omega

theorem startOfDay_endOfDay (t : Int) : startOfDay (endOfDay t) = startOfDay t := by
  simp only [endOfDay, startOfDay, dayMs]
  omega

theorem endOfDay_idem (t : Int) : endOfDay (endOfDay t) = endOfDay t := by
  simp only [endOfDay, startOfDay, dayMs]
  omega

theorem normalizeDateRange_of_normalized (a b : Int) (ha : a = startOfDay a)
    (hb : b = endOfDay b) (hab : a ≤ b) : normalizeDateRange a b = (a, b) := by
  simp only [normalizeDateRange]
  rw [← ha]
  have hb2 : endOfDay b = b := by rw [hb, endOfDay_idem]
  rw [hb2, if_neg (by omega)]

/-- Shared: the clamping tail of `calculatePresetRange` always yields an
ordered range whose upper end is at most the end of the bounds' last day. -/
theorem clampPreset_ordered (pm px lo hi : Int) :
    (clampPreset pm px (some lo) (some hi)).1 ≤ (clampPreset pm px (some lo) (some hi)).2 ∧
    (clampPreset pm px (some lo) (some hi)).2 ≤ endOfDay hi := by
  simp only [clampPreset]
  have h1 := startOfDay_le px
  have h2 := le_endOfDay hi
  have h3 := startOfDay_le (endOfDay hi)
  split_ifs <;> constructor <;> omega

/-- C6 (amended part): for every preset, clock, and data bounds, a resolved
preset range is ordered (`from ≤ to`) and its end stays within the end of
the bounds' last day; the lower containment claimed by the spec can fail. -/
theorem preset_clamp_ordered_and_upper (preset : String) (now lo hi : Int)
    (hlh : lo ≤ hi) (r : Int × Int)
    (hr : calculatePresetRange preset now (some lo) (some hi) = some r) :
    r.1 ≤ r.2 ∧ r.2 ≤ endOfDay hi := by
  unfold calculatePresetRange at hr
  split at hr
  · exact absurd hr (by simp)
  · revert hr
    match rawPresetRange preset now (some lo) (some hi) with
    | none => intro hr; exact absurd hr (by simp)
    | some (a, b) =>
      intro hr
      have := clampPreset_ordered (startOfDay a) (endOfDay b) lo hi
      simp only [Option.some.injEq] at hr
      rw [← hr]
      exact this

/-- Witness for `preset_clamp_ordered_and_upper` at the spec's own example:
`last30Days`, "today" = 2024-06-01, bounds = Jan 2024. -/
theorem preset_clamp_ordered_and_upper_witness :
    (daysFromCivil 2024 1 1 * dayMs ≤ daysFromCivil 2024 1 31 * dayMs) ∧
    ((daysFromCivil 2024 1 31 * dayMs, daysFromCivil 2024 1 31 * dayMs + dayMs - 1).1 ≤
       (daysFromCivil 2024 1 31 * dayMs, daysFromCivil 2024 1 31 * dayMs + dayMs - 1).2 ∧
     (daysFromCivil 2024 1 31 * dayMs, daysFromCivil 2024 1 31 * dayMs + dayMs - 1).2 ≤
       endOfDay (daysFromCivil 2024 1 31 * dayMs)) :=
  ⟨by decide,
   preset_clamp_ordered_and_upper "last30Days" (daysFromCivil 2024 6 1 * dayMs)
     (daysFromCivil 2024 1 1 * dayMs) (daysFromCivil 2024 1 31 * dayMs)
     (by decide) _ (by decide)⟩

/-- C6 counterexample: with preset `yesterday`, now = 1970-01-01 and data
bounds 10..20 days later, the resolved range `[-86400000, -1]` is ordered
but lies entirely *before* `startOfDay bounds.min`, refuting the claimed
containment `from ≥ bounds.min at start of day`. -/
theorem preset_clamp_below_bounds_counterexample :
    calculatePresetRange "yesterday" 0 (some (10 * dayMs)) (some (20 * dayMs)) =
      some (-86400000, -1) ∧
    10 * dayMs ≤ 20 * dayMs ∧
    (-86400000 : Int) < startOfDay (10 * dayMs) := by decide

/-- C8: for every state, the bookmark capture carries only the active preset
identifier and `isClearSelection = false`; all four date fields are null. -/
theorem capture_omits_absolute_dates (s : VState) :
    (getBookmarkState s).lastPreset = s.activePreset ∧
    (getBookmarkState s).isClearSelection = false ∧
    (getBookmarkState s).selectedMinDate = none ∧
    (getBookmarkState s).selectedMaxDate = none ∧
    (getBookmarkState s).dataMinDate = none ∧
    (getBookmarkState s).dataMaxDate = none :=
  ⟨rfl, rfl, rfl, rfl, rfl, rfl⟩

theorem hasSubstr_greater_yes :
    hasSubstr (lowerList "GreaterThanOrEqual") ['g', 'r', 'e', 'a', 't', 'e', 'r'] = true := by
  decide

theorem hasSubstr_less_yes :
    hasSubstr (lowerList "LessThanOrEqual") ['l', 'e', 's', 's'] = true := by decide

theorem hasSubstr_less_no_greater :
    hasSubstr (lowerList "LessThanOrEqual") ['g', 'r', 'e', 'a', 't', 'e', 'r'] = false := by
  decide

/-- Shared: decoding an encoded predicate recovers the encoded range (for
any pair of valid timestamps and the same bound column). -/
theorem decode_encode (src : Source) (a b : Int)
    (hva : jsDateValid a = true) (hvb : jsDateValid b = true) :
    getDateRangeFromFilters [mkAdvancedFilter src a b] (some src) = some (a, b) := by
  simp [getDateRangeFromFilters, scanFilters, mkAdvancedFilter, decodeConds,
        parseToDate, hva, hvb, hasSubstr_greater_yes, hasSubstr_less_yes,
        hasSubstr_less_no_greater]

/-- C9: decoding the predicate produced by encoding a valid whole-day range
for the same bound column returns exactly that range. -/
theorem codec_round_trip (src : Source) (a b : Int)
    (ha : a = startOfDay a) (hb : b = endOfDay b) (hab : a ≤ b)
    (hva : jsDateValid a = true) (hvb : jsDateValid b = true) :
    getDateRangeFromFilters [mkAdvancedFilter src a b] (some src) = some (a, b) :=
  decode_encode src a b hva hvb

/-- Witness for `codec_round_trip` on the whole day 1970-01-01. -/
theorem codec_round_trip_witness :
    ((0 : Int) = startOfDay 0 ∧ (86399999 : Int) = endOfDay 86399999 ∧
     (0 : Int) ≤ 86399999 ∧ jsDateValid 0 = true ∧ jsDateValid 86399999 = true) ∧
    getDateRangeFromFilters [mkAdvancedFilter ⟨"T", "C"⟩ 0 86399999]
      (some ⟨"T", "C"⟩) = some (0, 86399999) :=
  ⟨⟨by decide, by decide, by decide, by decide, by decide⟩,
   codec_round_trip ⟨"T", "C"⟩ 0 86399999 (by decide) (by decide) (by decide)
     (by decide) (by decide)⟩

/-- C10: `parseToDate` never yields an invalid date (every `some` result is
a valid JS timestamp, mirroring the `isNaN` guards), and a numeric input
below 10,000,000,000 is interpreted as Excel serial days since 1899-12-30
rather than as epoch milliseconds. -/
theorem parseToDate_valid_and_excel :
    (∀ v t, parseToDate v = some t → jsDateValid t = true) ∧
    (∀ n : Int, n < 10000000000 →
      parseToDate (.num n) =
        if jsDateValid (excelEpochMs + n * dayMs) then some (excelEpochMs + n * dayMs)
        else none) := by
  constructor
  · intro v t h
    cases v <;> simp only [parseToDate] at h
    · split at h
      · cases h; assumption
      · exact absurd h (by simp)
    · exact absurd h (by simp)
    · split at h
      · split at h
        · cases h; assumption
        · exact absurd h (by simp)
      · split at h
        · cases h; assumption
        · exact absurd h (by simp)
    · split at h
      · cases h; assumption
      · exact absurd h (by simp)
    · split at h
      · cases h; assumption
      · exact absurd h (by simp)
    · split at h
      · cases h; assumption
      · exact absurd h (by simp)
    · revert h
      split
      · intro h
        split at h
        · cases h; assumption
        · exact absurd h (by simp)
      · intro h; exact absurd h (by simp)
    · exact absurd h (by simp)
  · intro n hn
    simp only [parseToDate, if_pos hn]

/-- Witness for `parseToDate_valid_and_excel`: Excel serial 25569 is
1970-01-01, and the validity bound holds on that result. -/
theorem parseToDate_valid_and_excel_witness :
    jsDateValid 0 = true ∧ parseToDate (.num 25569) = some 0 := by
  constructor
  · exact parseToDate_valid_and_excel.1 (.num 25569) 0 (by decide)
  · have h := parseToDate_valid_and_excel.2 25569 (by decide)
    simpa using h

theorem timeBased_ne_empty {p : String} (hp : p ∈ timeBasedPresets) : p ≠ "" := by
  simp only [timeBasedPresets, List.mem_cons, List.mem_singleton, List.not_mem_nil,
    or_false] at hp
  rcases hp with h | h | h | h | h | h | h <;> subst h <;> decide

theorem calcPreset_isSome_of_timeBased (p : String) (hp : p ∈ timeBasedPresets)
    (now : Int) (dMin dMax : Option Int) :
    ∃ r, calculatePresetRange p now dMin dMax = some r := by
  simp only [timeBasedPresets, List.mem_cons, List.mem_singleton, List.not_mem_nil,
    or_false] at hp
  rcases hp with h | h | h | h | h | h | h <;> subst h <;> exact ⟨_, rfl⟩

/-- C1: restoring any snapshot blob that carries a time-relative preset and
is not a clear-selection blob re-resolves the preset against the restore
moment `now` and the instance's current data bounds; the result never
depends on the date fields the blob may carry (they are universally
quantified here and unused), and the manual-selection flag is cleared. -/
theorem restore_timeBased_recomputes_live (s : VState) (blob : BookmarkBlob)
    (panePreset : String) (now : Int) (p : String)
    (hclear : blob.isClearSelection = false)
    (hp : blob.lastPreset = some p)
    (htime : p ∈ timeBasedPresets) :
    ∃ r, calculatePresetRange p now s.dataMinDate s.dataMaxDate = some r ∧
      (restoreBookmarkState s blob panePreset now).1.selectedMinDate = some r.1 ∧
      (restoreBookmarkState s blob panePreset now).1.selectedMaxDate = some r.2 ∧
      (restoreBookmarkState s blob panePreset now).1.hasManualSelection = false := by
  obtain ⟨r, hr⟩ := calcPreset_isSome_of_timeBased p htime now s.dataMinDate s.dataMaxDate
  obtain ⟨pf, pt⟩ := r
  have hne := timeBased_ne_empty htime
  refine ⟨(pf, pt), hr, ?_⟩
  unfold restoreBookmarkState
  simp only [hclear, Bool.false_eq_true, if_false, hp, jsOrStr, if_neg hne,
    decide_eq_true htime, if_pos rfl]
  rw [show ({ s with isRestoringBookmark := true } : VState).dataMinDate = s.dataMinDate
        from rfl,
      show ({ s with isRestoringBookmark := true } : VState).dataMaxDate = s.dataMaxDate
        from rfl, hr]
  cases s.currentDataSource <;> simp

/-- Witness for `restore_timeBased_recomputes_live`: a blob carrying preset
`yesterday` and stale absolute dates, restored at a much later clock. -/
theorem restore_timeBased_recomputes_live_witness :
    (({ lastPreset := some "yesterday", selectedMinDate := some (3 * dayMs),
        selectedMaxDate := some (4 * dayMs) } : BookmarkBlob).isClearSelection = false) ∧
    (({ lastPreset := some "yesterday", selectedMinDate := some (3 * dayMs),
        selectedMaxDate := some (4 * dayMs) } : BookmarkBlob).lastPreset =
      some "yesterday") ∧
    ("yesterday" ∈ timeBasedPresets) ∧
    (∃ r, calculatePresetRange "yesterday" (300 * dayMs + 77)
        (({ dataMinDate := some 0, dataMaxDate := some (400 * dayMs),
            currentDataSource := some ⟨"T", "C"⟩ } : VState)).dataMinDate
        (({ dataMinDate := some 0, dataMaxDate := some (400 * dayMs),
            currentDataSource := some ⟨"T", "C"⟩ } : VState)).dataMaxDate = some r ∧
      (restoreBookmarkState
        { dataMinDate := some 0, dataMaxDate := some (400 * dayMs),
          currentDataSource := some ⟨"T", "C"⟩ }
        { lastPreset := some "yesterday", selectedMinDate := some (3 * dayMs),
          selectedMaxDate := some (4 * dayMs) } "none"
        (300 * dayMs + 77)).1.selectedMinDate = some r.1 ∧
      (restoreBookmarkState
        { dataMinDate := some 0, dataMaxDate := some (400 * dayMs),
          currentDataSource := some ⟨"T", "C"⟩ }
        { lastPreset := some "yesterday", selectedMinDate := some (3 * dayMs),
          selectedMaxDate := some (4 * dayMs) } "none"
        (300 * dayMs + 77)).1.selectedMaxDate = some r.2 ∧
      (restoreBookmarkState
        { dataMinDate := some 0, dataMaxDate := some (400 * dayMs),
          currentDataSource := some ⟨"T", "C"⟩ }
        { lastPreset := some "yesterday", selectedMinDate := some (3 * dayMs),
          selectedMaxDate := some (4 * dayMs) } "none"
        (300 * dayMs + 77)).1.hasManualSelection = false) :=
  ⟨rfl, rfl, by decide,
   restore_timeBased_recomputes_live
     { dataMinDate := some 0, dataMaxDate := some (400 * dayMs),
       currentDataSource := some ⟨"T", "C"⟩ }
     { lastPreset := some "yesterday", selectedMinDate := some (3 * dayMs),
       selectedMaxDate := some (4 * dayMs) } "none" (300 * dayMs + 77) "yesterday"
     rfl rfl (by decide)⟩

/-- C3 (amended): the clear-all body is level-triggered, not edge-triggered:
within the external/clear-all decision chain it runs exactly when no
decodable external predicate is present this tick, no user-initiated change
is in flight, both data bounds are set, and `clearAllPending` is not already
set — presence of a predicate on the *previous* tick is never consulted. -/
theorem clearAll_is_level_triggered (s : VState) (inp : TickInput)
    (selectedPreset : String) (ext : Option (Int × Int)) :
    (externalChain s inp selectedPreset ext).2.2.2 = true ↔
      (ext = none ∧ s.isUserInitiatedChange = false ∧ s.clearAllPending = false ∧
       s.dataMinDate.isSome = true ∧ s.dataMaxDate.isSome = true) := by
  match ext with
  | some (e1, e2) =>
    simp only [externalChain]
    constructor
    · intro h
      exfalso
      revert h
      split_ifs <;> simp_all <;> (try split) <;> (try split) <;> simp_all
    · rintro ⟨h, -⟩
      exact absurd h (by simp)
  | none =>
    simp only [externalChain]
    by_cases h1 : s.isUserInitiatedChange = true
    · simp [h1]
    · by_cases h2 : s.dataMinDate.isSome = true
      · by_cases h3 : s.dataMaxDate.isSome = true
        · by_cases h4 : s.clearAllPending = true
          · simp [h1, h2, h3, h4]
          · simp only [Bool.not_eq_true] at h1 h4
            simp [h1, h2, h3, h4]
        · simp [h1, h2, h3]
      · simp [h1, h2]

/-- C3 counterexample: starting from a fresh instance and ticking twice with
identical inputs and an always-empty filter bus (an external predicate was
never present, so no present-to-absent edge ever occurs), the clear-all body
does not run on the first tick but runs on the second — refuting the claim
that it runs only when a predicate was present on the previous tick. -/
theorem clearAll_without_prior_presence_counterexample :
    (let inp : TickInput :=
      { values := [.date (100 * dayMs + 5000), .date (120 * dayMs + 7000)],
        source := some ⟨"T", "C"⟩, selectedPreset := "none", jsonFilters := [],
        now := 130 * dayMs + 123 }
     let out1 := update {} inp
     let out2 := update (settle out1.s out1.resets) inp
     inp.jsonFilters = [] ∧ out1.tookClearAll = false ∧ out2.tookClearAll = true) := by
  decide

/-- C2 counterexample: after the user picks range R (the engine writes R to
the bus and, by the next tick, the user-initiated flag has lapsed), a tick
whose external predicate decodes to exactly R leaves the selection and flags
unchanged — but the engine *writes R to the filter bus again*, refuting the
"does not write again" half of the claim. -/
theorem echo_tick_rewrites_counterexample :
    (let base : VState :=
      { dataMinDate := some (100 * dayMs + 5000), dataMaxDate := some (120 * dayMs + 7000),
        lastPresetSetting := some "none", currentDataSource := some ⟨"T", "C"⟩,
        selectedMinDate := some (101 * dayMs), selectedMaxDate := some (115 * dayMs),
        hasSliderWrapper := true }
     let written := onDateChangeM base (105 * dayMs) (111 * dayMs - 1)
     let inp : TickInput :=
      { values := [.date (100 * dayMs + 5000), .date (120 * dayMs + 7000)],
        source := some ⟨"T", "C"⟩, selectedPreset := "none",
        jsonFilters := [mkAdvancedFilter ⟨"T", "C"⟩ (105 * dayMs) (111 * dayMs - 1)],
        now := 130 * dayMs }
     let out := update written.1 inp
     written.2 = [mkAdvancedFilter ⟨"T", "C"⟩ (105 * dayMs) (111 * dayMs - 1)] ∧
     getDateRangeFromFilters inp.jsonFilters (some ⟨"T", "C"⟩) =
       some (105 * dayMs, 111 * dayMs - 1) ∧
     written.1.isUserInitiatedChange = false ∧
     written.1.selectedMinDate = some (105 * dayMs) ∧
     written.1.selectedMaxDate = some (111 * dayMs - 1) ∧
     out.s.selectedMinDate = written.1.selectedMinDate ∧
     out.s.selectedMaxDate = written.1.selectedMaxDate ∧
     out.s.hasManualSelection = written.1.hasManualSelection ∧
     out.writes = [mkAdvancedFilter ⟨"T", "C"⟩ (105 * dayMs) (111 * dayMs - 1)]) := by
  decide

/-- C4 counterexample: a tick with a decodable external predicate for the
bound column whose range differs from the current selection, no
user-initiated change in flight and no restore in progress, adopts the
decoded range and performs no write — but leaves `hasManualSelection` at
`false`, refuting the claim that it is set to `true`. -/
theorem external_adoption_manualFlag_counterexample :
    (let base : VState :=
      { dataMinDate := some (100 * dayMs + 5000), dataMaxDate := some (120 * dayMs + 7000),
        lastPresetSetting := some "none", currentDataSource := some ⟨"T", "C"⟩,
        selectedMinDate := some (101 * dayMs), selectedMaxDate := some (115 * dayMs),
        hasSliderWrapper := true }
     let inp : TickInput :=
      { values := [.date (100 * dayMs + 5000), .date (120 * dayMs + 7000)],
        source := some ⟨"T", "C"⟩, selectedPreset := "none",
        jsonFilters := [mkAdvancedFilter ⟨"T", "C"⟩ (103 * dayMs) (110 * dayMs - 1)],
        now := 130 * dayMs }
     let out := update base inp
     base.isUserInitiatedChange = false ∧
     base.isRestoringBookmark = false ∧
     getDateRangeFromFilters inp.jsonFilters (some ⟨"T", "C"⟩) =
       some (103 * dayMs, 110 * dayMs - 1) ∧
     (base.selectedMinDate ≠ some (103 * dayMs) ∨
      base.selectedMaxDate ≠ some (110 * dayMs - 1)) ∧
     out.s.selectedMinDate = some (103 * dayMs) ∧
     out.s.selectedMaxDate = some (110 * dayMs - 1) ∧
     out.writes = [] ∧
     out.s.hasManualSelection = false) := by
  decide

/-- C5 counterexample: a tick on which only the data bounds changed (same
preset configuration `today`, no user interaction, no restore, and the
clear-all body did not run) nevertheless sends predicates to the filter bus,
because the general preset-enforcement re-asserts the live preset range —
refuting "sends no predicate to the filter bus". -/
theorem bounds_change_write_counterexample :
    (let base : VState :=
      { dataMinDate := some 0, dataMaxDate := some (200 * dayMs),
        lastPresetSetting := some "today", activePreset := some "today",
        currentDataSource := some ⟨"T", "C"⟩,
        selectedMinDate := some (10 * dayMs), selectedMaxDate := some (20 * dayMs),
        hasSliderWrapper := true }
     let inp : TickInput :=
      { values := [.date (5 * dayMs), .date (190 * dayMs)],
        source := some ⟨"T", "C"⟩, selectedPreset := "today",
        jsonFilters := [mkAdvancedFilter ⟨"T", "C"⟩ (10 * dayMs) (20 * dayMs)],
        now := 150 * dayMs }
     let out := update base inp
     base.lastPresetSetting = some inp.selectedPreset ∧
     base.isUserInitiatedChange = false ∧
     base.isRestoringBookmark = false ∧
     (base.dataMinDate ≠ some (5 * dayMs) ∨ base.dataMaxDate ≠ some (190 * dayMs)) ∧
     out.tookClearAll = false ∧
     out.s.dataMinDate = some (startOfDay (5 * dayMs)) ∧
     out.s.dataMaxDate = some (endOfDay (190 * dayMs)) ∧
     out.writes ≠ []) := by
  decide

/-- C7 counterexample: a preset-configuration-change tick (preset `none` to
`today`, data source available) invokes `applyJsonFilter` three times in the
same `update` call — once from `updateSelectedDates`, once from the direct
Desktop backup call, and once from the end-of-tick apply — refuting "at most
one write per tick". All three writes carry the identical predicate. -/
theorem preset_change_triple_write_counterexample :
    (let base : VState :=
      { dataMinDate := some (100 * dayMs + 5000), dataMaxDate := some (200 * dayMs),
        lastPresetSetting := some "none", currentDataSource := some ⟨"T", "C"⟩,
        selectedMinDate := some (101 * dayMs), selectedMaxDate := some (115 * dayMs),
        hasSliderWrapper := true }
     let inp : TickInput :=
      { values := [.date (100 * dayMs + 5000), .date (200 * dayMs)],
        source := some ⟨"T", "C"⟩, selectedPreset := "today",
        jsonFilters := [mkAdvancedFilter ⟨"T", "C"⟩ (150 * dayMs) (151 * dayMs - 1)],
        now := 150 * dayMs + 999 }
     let out := update base inp
     out.writes =
       [mkAdvancedFilter ⟨"T", "C"⟩ (150 * dayMs) (151 * dayMs - 1),
        mkAdvancedFilter ⟨"T", "C"⟩ (150 * dayMs) (151 * dayMs - 1),
        mkAdvancedFilter ⟨"T", "C"⟩ (150 * dayMs) (151 * dayMs - 1)] ∧
     out.writes.length = 3) := by
  decide

/-- C2 (amended): on a tick whose external predicate decodes to exactly the
current selection (the range this instance last wrote), with no preset
configured and no bounds change, the local state is preserved (selection,
manual flag) — but the engine performs one more `applyJsonFilter` call with
the identical predicate, because `shouldApplyFilter` is still `true`; echo
suppression of the *write* does not exist in the code. -/
theorem echo_tick_preserves_state_but_rewrites (s : VState) (inp : TickInput)
    (dmin dmax a b n : Int) (src : Source) (m : Bool)
    (hv1 : jsDateValid dmin = true) (hv2 : jsDateValid dmax = true)
    (hdd : dmin ≤ dmax)
    (hva : jsDateValid a = true) (hvb : jsDateValid b = true)
    (hs : s = { dataMinDate := some dmin, dataMaxDate := some dmax,
                lastPresetSetting := some "none", currentDataSource := some src,
                selectedMinDate := some a, selectedMaxDate := some b,
                hasManualSelection := m, hasSliderWrapper := true })
    (hinp : inp = { values := [.date dmin, .date dmax], source := some src,
                    selectedPreset := "none",
                    jsonFilters := [mkAdvancedFilter src a b], now := n }) :
    (update s inp).s.selectedMinDate = some a ∧
    (update s inp).s.selectedMaxDate = some b ∧
    (update s inp).s.hasManualSelection = m ∧
    (update s inp).s.shouldApplyFilter = true ∧
    (update s inp).writes = [mkAdvancedFilter src a b] ∧
    (update s inp).tookClearAll = false := by
  subst hs hinp
  cases m <;>
    simp [update, boundsStep, presetStep, generalEnforceStep, bookmarkEnforceStep,
      staleEnforceStep, filterBlock, externalChain, renderDateCardM, applyDateFilterM,
      updateSelectedDatesM, calculatePresetRange, rawPresetRange, parseToDate,
      hv1, hv2, hva, hvb, decode_encode src a b hva hvb,
      min_eq_left hdd, max_eq_right hdd, Resets.merge]

/-- Witness for `echo_tick_preserves_state_but_rewrites`. -/
theorem echo_tick_preserves_state_but_rewrites_witness :
    jsDateValid (0 : Int) = true ∧
    ((update
        { dataMinDate := some 0, dataMaxDate := some (50 * dayMs),
          lastPresetSetting := some "none", currentDataSource := some ⟨"T", "C"⟩,
          selectedMinDate := some (10 * dayMs), selectedMaxDate := some (20 * dayMs),
          hasManualSelection := true, hasSliderWrapper := true }
        { values := [.date 0, .date (50 * dayMs)], source := some ⟨"T", "C"⟩,
          selectedPreset := "none",
          jsonFilters := [mkAdvancedFilter ⟨"T", "C"⟩ (10 * dayMs) (20 * dayMs)],
          now := 0 }).s.selectedMinDate = some (10 * dayMs) ∧
     (update
        { dataMinDate := some 0, dataMaxDate := some (50 * dayMs),
          lastPresetSetting := some "none", currentDataSource := some ⟨"T", "C"⟩,
          selectedMinDate := some (10 * dayMs), selectedMaxDate := some (20 * dayMs),
          hasManualSelection := true, hasSliderWrapper := true }
        { values := [.date 0, .date (50 * dayMs)], source := some ⟨"T", "C"⟩,
          selectedPreset := "none",
          jsonFilters := [mkAdvancedFilter ⟨"T", "C"⟩ (10 * dayMs) (20 * dayMs)],
          now := 0 }).writes =
       [mkAdvancedFilter ⟨"T", "C"⟩ (10 * dayMs) (20 * dayMs)]) :=
  ⟨by decide,
   (echo_tick_preserves_state_but_rewrites _ _ 0 (50 * dayMs) (10 * dayMs) (20 * dayMs)
      0 ⟨"T", "C"⟩ true (by decide) (by decide) (by decide) (by decide) (by decide)
      rfl rfl).1,
   (echo_tick_preserves_state_but_rewrites _ _ 0 (50 * dayMs) (10 * dayMs) (20 * dayMs)
      0 ⟨"T", "C"⟩ true (by decide) (by decide) (by decide) (by decide) (by decide)
      rfl rfl).2.2.2.2.1⟩

/-- C4 (amended): on a tick with a decodable external predicate for the
bound column whose range differs from the current selection, no
user-initiated change in flight and no restore in progress (preset `none`),
the engine adopts the decoded range, disables further write-back
(`shouldApplyFilter := false`) so no write happens that tick — but it
leaves `hasManualSelection` unchanged rather than setting it to `true`. -/
theorem external_adoption_behavior (s : VState) (inp : TickInput)
    (dmin dmax a b e1 e2 n : Int) (src : Source) (m : Bool)
    (hv1 : jsDateValid dmin = true) (hv2 : jsDateValid dmax = true)
    (hdd : dmin ≤ dmax)
    (hve1 : jsDateValid e1 = true) (hve2 : jsDateValid e2 = true)
    (hne : a ≠ e1 ∨ b ≠ e2)
    (hs : s = { dataMinDate := some dmin, dataMaxDate := some dmax,
                lastPresetSetting := some "none", currentDataSource := some src,
                selectedMinDate := some a, selectedMaxDate := some b,
                hasManualSelection := m, hasSliderWrapper := true })
    (hinp : inp = { values := [.date dmin, .date dmax], source := some src,
                    selectedPreset := "none",
                    jsonFilters := [mkAdvancedFilter src e1 e2], now := n }) :
    (update s inp).s.selectedMinDate = some e1 ∧
    (update s inp).s.selectedMaxDate = some e2 ∧
    (update s inp).s.hasManualSelection = m ∧
    (update s inp).s.shouldApplyFilter = false ∧
    (update s inp).writes = [] ∧
    (update s inp).tookClearAll = false := by
  subst hs hinp
  rcases hne with h | h <;> cases m <;>
    simp [update, boundsStep, presetStep, generalEnforceStep, bookmarkEnforceStep,
      staleEnforceStep, filterBlock, externalChain, renderDateCardM, applyDateFilterM,
      updateSelectedDatesM, calculatePresetRange, rawPresetRange, parseToDate,
      hv1, hv2, hve1, hve2, decode_encode src e1 e2 hve1 hve2,
      min_eq_left hdd, max_eq_right hdd, Resets.merge, h]

/-- Witness for `external_adoption_behavior`. -/
theorem external_adoption_behavior_witness :
    ((10 * dayMs : Int) ≠ 3 * dayMs ∨ (20 * dayMs : Int) ≠ 7 * dayMs) ∧
    ((update
        { dataMinDate := some 0, dataMaxDate := some (50 * dayMs),
          lastPresetSetting := some "none", currentDataSource := some ⟨"T", "C"⟩,
          selectedMinDate := some (10 * dayMs), selectedMaxDate := some (20 * dayMs),
          hasManualSelection := true, hasSliderWrapper := true }
        { values := [.date 0, .date (50 * dayMs)], source := some ⟨"T", "C"⟩,
          selectedPreset := "none",
          jsonFilters := [mkAdvancedFilter ⟨"T", "C"⟩ (3 * dayMs) (7 * dayMs)],
          now := 0 }).s.hasManualSelection = true ∧
     (update
        { dataMinDate := some 0, dataMaxDate := some (50 * dayMs),
          lastPresetSetting := some "none", currentDataSource := some ⟨"T", "C"⟩,
          selectedMinDate := some (10 * dayMs), selectedMaxDate := some (20 * dayMs),
          hasManualSelection := true, hasSliderWrapper := true }
        { values := [.date 0, .date (50 * dayMs)], source := some ⟨"T", "C"⟩,
          selectedPreset := "none",
          jsonFilters := [mkAdvancedFilter ⟨"T", "C"⟩ (3 * dayMs) (7 * dayMs)],
          now := 0 }).writes = []) :=
  ⟨Or.inl (by decide),
   (external_adoption_behavior _ _ 0 (50 * dayMs) (10 * dayMs) (20 * dayMs)
      (3 * dayMs) (7 * dayMs) 0 ⟨"T", "C"⟩ true (by decide) (by decide) (by decide)
      (by decide) (by decide) (Or.inl (by decide)) rfl rfl).2.2.1,
   (external_adoption_behavior _ _ 0 (50 * dayMs) (10 * dayMs) (20 * dayMs)
      (3 * dayMs) (7 * dayMs) 0 ⟨"T", "C"⟩ true (by decide) (by decide) (by decide)
      (by decide) (by decide) (Or.inl (by decide)) rfl rfl).2.2.2.2.1⟩

/-- C5 (amended): on a tick where only the data bounds changed (no preset
configured, no external predicate, no user interaction, no restore, and the
clear-all body does not run because `clearAllPending` is still set), the
engine updates its bounds to the normalized new bounds, clamps the existing
selection into them, and sends nothing to the filter bus. With a preset
configured the general preset-enforcement can write on such a tick (see the
counterexample), so "never causes a write" does not hold in general. -/
theorem bounds_only_change_no_write (s : VState) (inp : TickInput)
    (odmin odmax ndmin ndmax a b n : Int) (src : Source) (m : Bool)
    (hv1 : jsDateValid ndmin = true) (hv2 : jsDateValid ndmax = true)
    (hdd : ndmin ≤ ndmax)
    (hch : odmin ≠ ndmin ∨ odmax ≠ ndmax)
    (hs : s = { dataMinDate := some odmin, dataMaxDate := some odmax,
                lastPresetSetting := some "none", currentDataSource := some src,
                selectedMinDate := some a, selectedMaxDate := some b,
                hasManualSelection := m, clearAllPending := true,
                hasSliderWrapper := true })
    (hinp : inp = { values := [.date ndmin, .date ndmax], source := some src,
                    selectedPreset := "none", jsonFilters := [], now := n }) :
    (update s inp).s.dataMinDate = some (startOfDay ndmin) ∧
    (update s inp).s.dataMaxDate = some (endOfDay ndmax) ∧
    (update s inp).s.selectedMinDate = some (max a (startOfDay ndmin)) ∧
    (update s inp).s.selectedMaxDate = some (min b (endOfDay ndmax)) ∧
    (update s inp).writes = [] ∧
    (update s inp).tookClearAll = false := by
  subst hs hinp
  rcases hch with h | h <;> cases m <;>
    simp [update, boundsStep, presetStep, generalEnforceStep, bookmarkEnforceStep,
      staleEnforceStep, filterBlock, externalChain, renderDateCardM, applyDateFilterM,
      updateSelectedDatesM, calculatePresetRange, rawPresetRange, parseToDate,
      getDateRangeFromFilters, hv1, hv2, min_eq_left hdd, max_eq_right hdd,
      Resets.merge, h]

/-- Witness for `bounds_only_change_no_write`: the new lower bound is not a
midnight value, so the bounds are normalized and the selection is clamped. -/
theorem bounds_only_change_no_write_witness :
    ((0 : Int) ≠ 5 * dayMs + 3 ∨ (100 * dayMs : Int) ≠ 90 * dayMs + 7) ∧
    ((update
        { dataMinDate := some 0, dataMaxDate := some (100 * dayMs),
          lastPresetSetting := some "none", currentDataSource := some ⟨"T", "C"⟩,
          selectedMinDate := some (2 * dayMs), selectedMaxDate := some (95 * dayMs),
          hasManualSelection := false, clearAllPending := true,
          hasSliderWrapper := true }
        { values := [.date (5 * dayMs + 3), .date (90 * dayMs + 7)],
          source := some ⟨"T", "C"⟩, selectedPreset := "none", jsonFilters := [],
          now := 0 }).s.selectedMinDate = some (max (2 * dayMs) (startOfDay (5 * dayMs + 3))) ∧
     (update
        { dataMinDate := some 0, dataMaxDate := some (100 * dayMs),
          lastPresetSetting := some "none", currentDataSource := some ⟨"T", "C"⟩,
          selectedMinDate := some (2 * dayMs), selectedMaxDate := some (95 * dayMs),
          hasManualSelection := false, clearAllPending := true,
          hasSliderWrapper := true }
        { values := [.date (5 * dayMs + 3), .date (90 * dayMs + 7)],
          source := some ⟨"T", "C"⟩, selectedPreset := "none", jsonFilters := [],
          now := 0 }).writes = []) :=
  ⟨Or.inl (by decide),
   (bounds_only_change_no_write _ _ 0 (100 * dayMs) (5 * dayMs + 3) (90 * dayMs + 7)
      (2 * dayMs) (95 * dayMs) 0 ⟨"T", "C"⟩ false (by decide) (by decide) (by decide)
      (Or.inl (by decide)) rfl rfl).2.2.1,
   (bounds_only_change_no_write _ _ 0 (100 * dayMs) (5 * dayMs + 3) (90 * dayMs + 7)
      (2 * dayMs) (95 * dayMs) 0 ⟨"T", "C"⟩ false (by decide) (by decide) (by decide)
      (Or.inl (by decide)) rfl rfl).2.2.2.2.1⟩

/-- C7 (amended): the engine does not write at most once per tick — a
preset-configuration-change tick with a data source available performs
exactly three `applyJsonFilter` calls, all carrying the identical predicate
for the live preset range (`updateSelectedDates`, the direct Desktop backup
call, and the end-of-tick apply). -/
theorem preset_change_tick_three_identical_writes (s : VState) (inp : TickInput)
    (dmin dmax a b e1 e2 nw : Int) (src : Source) (m : Bool)
    (hv1 : jsDateValid dmin = true) (hv2 : jsDateValid dmax = true)
    (hdd : dmin ≤ dmax)
    (hc1 : dmin ≤ startOfDay nw) (hc2 : endOfDay nw ≤ dmax)
    (hve1 : jsDateValid e1 = true) (hve2 : jsDateValid e2 = true)
    (hs : s = { dataMinDate := some dmin, dataMaxDate := some dmax,
                lastPresetSetting := some "none", currentDataSource := some src,
                selectedMinDate := some a, selectedMaxDate := some b,
                hasManualSelection := m, hasSliderWrapper := true })
    (hinp : inp = { values := [.date dmin, .date dmax], source := some src,
                    selectedPreset := "today",
                    jsonFilters := [mkAdvancedFilter src e1 e2], now := nw }) :
    (update s inp).writes =
      [mkAdvancedFilter src (startOfDay nw) (endOfDay nw),
       mkAdvancedFilter src (startOfDay nw) (endOfDay nw),
       mkAdvancedFilter src (startOfDay nw) (endOfDay nw)] ∧
    (update s inp).tookClearAll = false := by
  subst hs hinp
  have hprfc : calculatePresetRange "today" nw (some dmin) (some dmax) =
      some (startOfDay nw, endOfDay nw) := by
    have h1 := startOfDay_le_endOfDay nw
    simp only [calculatePresetRange, rawPresetRange, clampPreset]
    rw [if_neg (by simp), if_neg (by omega), if_neg (by omega), if_neg (by omega)]
  have hn : normalizeDateRange (startOfDay nw) (endOfDay nw) =
      (startOfDay nw, endOfDay nw) :=
    normalizeDateRange_of_normalized _ _ (startOfDay_idem nw).symm (endOfDay_idem nw).symm
      (startOfDay_le_endOfDay nw)
  simp [update, boundsStep, presetStep, generalEnforceStep, bookmarkEnforceStep,
    staleEnforceStep, filterBlock, externalChain, renderDateCardM, applyDateFilterM,
    updateSelectedDatesM, parseToDate, hprfc, hn,
    hv1, hv2, hve1, hve2, decode_encode src e1 e2 hve1 hve2,
    min_eq_left hdd, max_eq_right hdd, Resets.merge]

/-- Witness for `preset_change_tick_three_identical_writes`. -/
theorem preset_change_tick_three_identical_writes_witness :
    ((0 : Int) ≤ startOfDay (10 * dayMs + 500)) ∧
    (update
      { dataMinDate := some 0, dataMaxDate := some (50 * dayMs),
        lastPresetSetting := some "none", currentDataSource := some ⟨"T", "C"⟩,
        selectedMinDate := some (3 * dayMs), selectedMaxDate := some (4 * dayMs),
        hasManualSelection := false, hasSliderWrapper := true }
      { values := [.date 0, .date (50 * dayMs)], source := some ⟨"T", "C"⟩,
        selectedPreset := "today",
        jsonFilters := [mkAdvancedFilter ⟨"T", "C"⟩ (1 * dayMs) (2 * dayMs)],
        now := 10 * dayMs + 500 }).writes =
      [mkAdvancedFilter ⟨"T", "C"⟩ (startOfDay (10 * dayMs + 500))
         (endOfDay (10 * dayMs + 500)),
       mkAdvancedFilter ⟨"T", "C"⟩ (startOfDay (10 * dayMs + 500))
         (endOfDay (10 * dayMs + 500)),
       mkAdvancedFilter ⟨"T", "C"⟩ (startOfDay (10 * dayMs + 500))
         (endOfDay (10 * dayMs + 500))] :=
  ⟨by decide,
   (preset_change_tick_three_identical_writes _ _ 0 (50 * dayMs) (3 * dayMs)
      (4 * dayMs) (1 * dayMs) (2 * dayMs) (10 * dayMs + 500) ⟨"T", "C"⟩ false
      (by decide) (by decide) (by decide) (by decide) (by decide) (by decide)
      (by decide) rfl rfl).1⟩

end Mahayaa
